import Mathlib

/-!
Verification development for the ev-server charging-station gateway and storage
code. Shallow embedding of `JsonWSConnection` (constructor, initialize, onError,
onClose, onPing, onPong, handleRequest, getChargingStationClient,
updateChargingStationLastSeen), `BillingFactory.getBillingImpl` and
`AsyncTaskStorage.getAsyncTasks`, together with theorems checking the
specification claims against these definitions.

External collaborators (logging sink, persistence, configuration, the handler
service object, the base `WSConnection` class) are not part of the given source
tree; they are represented as an explicit environment of functions, and the
definitions that stand in for repository code that is absent from the source
tree carry a doc comment starting with: Modelled from the spec.
-/

namespace EvServer

/-- OCPP headers built by `JsonWSConnection.initialize` (`OCPPHeader` in
`types/ocpp/OCPPHeader.ts`). `fromAddress` embeds the `From.Address` field and
`currentIPAddress` is the optional field refreshed by `handleRequest` for the
identity-bearing actions. -/
structure OCPPHeader where
  chargeBoxIdentity : String
  ocppVersion : String
  ocppProtocol : String
  chargingStationURL : String
  tenantID : String
  token : String
  fromAddress : String
  currentIPAddress : Option String
  deriving DecidableEq, Repr

/-- The JSON charging-station client created by the `JsonWSConnection`
constructor (`new JsonChargingStationClient(this, tenantID, stationID)`); only
its identity data is relevant here. -/
structure StationClient where
  tenantID : String
  chargingStationID : String
  deriving DecidableEq, Repr

/-- A charging station record as returned by
`ChargingStationStorage.getChargingStation`; the source only tests the record
for existence, so only an identifier is kept. -/
structure ChargingStation where
  id : String
  deriving DecidableEq, Repr

/-- State of one `JsonWSConnection`: identity data resolved by the base class
from the connection URL, the `initialized` flag and `headers` written by
`initialize`, the `isConnectionAlive` flag, whether the underlying WebSocket is
open (`isWSConnectionOpen`), the created station client, and the correlation
ids of the outbound calls currently pending in the station client (the
PendingCall set of the spec, carried by the client object). -/
structure ConnState where
  protocol : String
  tenantID : String
  chargingStationID : String
  token : String
  clientIP : String
  url : String
  initialized : Bool
  headers : Option OCPPHeader
  isConnectionAlive : Bool
  wsOpen : Bool
  client : StationClient
  pendingCalls : List String
  deriving DecidableEq, Repr

/-- Audit records emitted to the external logging collaborator, one constructor
per `Logging.*` call site appearing in `JsonWSConnection`. -/
inductive AuditEvent
  | receiveAction (tenantID chargingStationID commandName payload : String)
  | respondAction (tenantID chargingStationID commandName result : String)
  | connectionOpened (tenantID chargingStationID : String)
  | connectionError (tenantID chargingStationID message : String)
  | connectionClosed (tenantID chargingStationID reason : String)
  | clientUnavailable (tenantID chargingStationID status : String)
  deriving DecidableEq, Repr

/-- OCPP error codes used by the connection (`OCPPErrorType` of
`types/ocpp/OCPPCommon.ts`; wire values are the strings NotImplemented and
InternalError). -/
inductive OCPPErrorType
  | notImplemented
  | internalError
  deriving DecidableEq, Repr

/-- Observable effects of the connection code. An `audit` event records one call
to the logging collaborator together with whether the code awaited it (`await
Logging...`, awaited = true) or discarded the promise (`void Logging...`,
awaited = false). `sendMessage` and `sendErrorFrame` are the frames handed to
the transport; `getChargingStation` and `saveChargingStationLastSeen` are the
calls to the persistence collaborator; `removeJsonConnection` is the
notification to the owning server; `closeTransport` closes the WebSocket. -/
inductive Event
  | audit (e : AuditEvent) (awaited : Bool)
  | invokeHandler (methodName : String)
  | sendMessage (messageId : String) (messageType : Nat) (result : String) (commandName : String)
  | sendErrorFrame (messageId : String) (code : OCPPErrorType) (description : String)
  | getChargingStation (tenantID chargingStationID : String)
  | saveChargingStationLastSeen (tenantID chargingStationID : String)
  | removeJsonConnection
  | closeTransport
  deriving DecidableEq, Repr

/-- The `OCPPError` exception thrown by `handleRequest` (fields of
`exception/OcppError.ts` that the source sets). -/
structure OCPPError where
  source : String
  code : OCPPErrorType
  message : String
  deriving DecidableEq, Repr

/-- Result of `handleRequest`: normal completion, a thrown `OCPPError`, or a
rejection of one of the awaited logging calls propagating out. -/
inductive HandleOutcome
  | ok
  | ocppError (e : OCPPError)
  | logFailure (e : String)
  deriving DecidableEq, Repr

/-- Result of `initialize`: normal completion, a failure of the base-class
initialization (identity resolution), or a rejection of the awaited logging
call propagating out. -/
inductive InitOutcome
  | ok
  | superFailed (e : String)
  | logFailed (e : String)
  deriving DecidableEq, Repr

/-- A command handler of the station service: takes the connection headers
(possibly still unset) and the command payload, returns the result payload.
Payloads are opaque to this layer and modelled as strings. -/
abbrev Handler := Option OCPPHeader → String → String

/-- Modelled from the spec: the external collaborators consumed by
`JsonWSConnection`, absent from the source tree. `serviceMethods` is the
property table of the `JsonChargingStationService` object restricted to its
function-valued properties (the handler registry of spec section 6, keyed by
JavaScript method name). `logOracle` is the logging collaborator: each audit
call resolves with a value (discarded by the connection code) or rejects; spec
section 6 declares it fire-and-forget. `getChargingStation` is
`ChargingStationStorage.getChargingStation`. `superInitialize` is the base
`WSConnection.initialize` (identity resolution, spec section 4.2).
`baseUrl` and `baseSecureUrl` come from `Configuration.getJsonEndpointConfig`
(an absent `baseSecureUrl` is the empty string, matching its falsiness in the
source). -/
structure Env where
  serviceMethods : String → Option Handler
  logOracle : AuditEvent → Except String Nat
  getChargingStation : String → String → Option ChargingStation
  superInitialize : ConnState → Except String ConnState
  baseUrl : String
  baseSecureUrl : String

/-- The recognized subprotocol `WSServerProtocol.OCPP16` (wire value ocpp1.6,
from `types/Server.ts`). -/
def wsServerProtocolOCPP16 : String := "ocpp1.6"

/-- `OCPPMessageType.CALL_RESULT_MESSAGE` (wire type tag 3). -/
def ocppMessageTypeCallResult : Nat := 3

/-- The `BackendError` thrown by the `JsonWSConnection` constructor (fields set
at the throw site). -/
structure BackendError where
  source : String
  module : String
  method : String
  message : String
  deriving DecidableEq, Repr

/-- Modelled from the spec: the handshake data available to the
`JsonWSConnection` constructor. The base `WSConnection` class (absent from the
source tree) parses the connection URL into station id, tenant id and token
(spec section 6); the negotiated subprotocol is `protocol`. -/
structure IncomingConnection where
  protocol : String
  tenantID : String
  chargingStationID : String
  token : String
  clientIP : String
  url : String
  deriving DecidableEq, Repr

/-- The `JsonWSConnection` constructor: switches on the negotiated subprotocol;
for `ocpp1.6` it creates the station client and service and sets
`isConnectionAlive = true`; any other subprotocol throws a `BackendError`
(message Protocol p not supported). -/
def jsonWSConnectionConstruct (c : IncomingConnection) : Except BackendError ConnState :=
  if c.protocol = wsServerProtocolOCPP16 then
    Except.ok
      { protocol := c.protocol
        tenantID := c.tenantID
        chargingStationID := c.chargingStationID
        token := c.token
        clientIP := c.clientIP
        url := c.url
        initialized := false
        headers := none
        isConnectionAlive := true
        wsOpen := true
        client := { tenantID := c.tenantID, chargingStationID := c.chargingStationID }
        pendingCalls := [] }
  else
    Except.error
      { source := c.chargingStationID
        module := "JsonWSConnection"
        method := "constructor"
        message := "Protocol " ++ c.protocol ++ " not supported" }

/-- Modelled from the spec: connection acceptance by `JsonCentralSystemServer`
(absent from the source tree). Per spec sections 4.5 and 7, a constructor
failure rejects the connection: the transport is closed, the connection never
enters the registry table, and no frame is processed; on success the connection
is registered under its (tenant, station) key, replacing a stale entry. -/
def acceptJsonConnection (registry : List (String × String)) (c : IncomingConnection) :
    Option ConnState × List (String × String) × List Event :=
  match jsonWSConnectionConstruct c with
  | Except.ok conn =>
      (some conn,
       registry.filter (fun k => k ≠ (c.tenantID, c.chargingStationID)) ++
         [(c.tenantID, c.chargingStationID)],
       [])
  | Except.error _ => (none, registry, [Event.closeTransport])

/-- `JsonWSConnection.initialize`: when not yet initialized, runs the base-class
initialization, builds the default OCPP headers (the ocpp version is the
subprotocol with its ocpp text removed when it starts with ocpp; the station
URL is the secure base URL when configured, else the plain one), sets
`initialized := true`, then awaits an info audit record. A second call finds
`initialized` true and does nothing. -/
def initConnection (env : Env) (s : ConnState) : ConnState × List Event × InitOutcome :=
  if s.initialized then (s, [], InitOutcome.ok)
  else
    match env.superInitialize s with
    | Except.error e => (s, [], InitOutcome.superFailed e)
    | Except.ok s1 =>
        let hd : OCPPHeader :=
          { chargeBoxIdentity := s1.chargingStationID
            ocppVersion :=
              if s1.protocol.startsWith "ocpp" then s1.protocol.drop 4 else s1.protocol
            ocppProtocol := "json"
            chargingStationURL :=
              if env.baseSecureUrl = "" then env.baseUrl else env.baseSecureUrl
            tenantID := s1.tenantID
            token := s1.token
            fromAddress := s1.clientIP
            currentIPAddress := none }
        let s2 := { s1 with headers := some hd, initialized := true }
        let ev := AuditEvent.connectionOpened s2.tenantID s2.chargingStationID
        match env.logOracle ev with
        | Except.error e => (s2, [Event.audit ev true], InitOutcome.logFailed e)
        | Except.ok _ => (s2, [Event.audit ev true], InitOutcome.ok)

/-- `JsonWSConnection.onError`: emits an error audit record with a discarded
promise (`void Logging.logError`); the connection state is untouched. -/
def onError (s : ConnState) (message : String) : ConnState × List Event :=
  (s, [Event.audit (AuditEvent.connectionError s.tenantID s.chargingStationID message) false])

/-- `JsonWSConnection.onClose`: emits an info audit record with a discarded
promise (`void Logging.logInfo`) and calls `wsServer.removeJsonConnection`;
no field of the connection is written. -/
def onClose (s : ConnState) (reason : String) : ConnState × List Event :=
  (s,
   [Event.audit (AuditEvent.connectionClosed s.tenantID s.chargingStationID reason) false,
    Event.removeJsonConnection])

/-- `JsonWSConnection.updateChargingStationLastSeen`: loads the station from
persistence; when it exists, saves a fresh last-seen timestamp. -/
def updateChargingStationLastSeen (env : Env) (s : ConnState) : List Event :=
  match env.getChargingStation s.tenantID s.chargingStationID with
  | some _ =>
      [Event.getChargingStation s.tenantID s.chargingStationID,
       Event.saveChargingStationLastSeen s.tenantID s.chargingStationID]
  | none => [Event.getChargingStation s.tenantID s.chargingStationID]

/-- `JsonWSConnection.onPing`: awaits `updateChargingStationLastSeen`. -/
def onPing (env : Env) (s : ConnState) : ConnState × List Event :=
  (s, updateChargingStationLastSeen env s)

/-- `JsonWSConnection.onPong`: sets `isConnectionAlive := true`, then awaits
`updateChargingStationLastSeen`. -/
def onPong (env : Env) (s : ConnState) : ConnState × List Event :=
  ({ s with isConnectionAlive := true }, updateChargingStationLastSeen env s)

/-- The header refresh performed by `handleRequest` before invoking the handler:
for the commands BootNotification and Heartbeat, `headers.currentIPAddress` is
set to the client IP. -/
def refreshCurrentIP (s : ConnState) (commandName : String) : ConnState :=
  if commandName = "BootNotification" ∨ commandName = "Heartbeat" then
    { s with headers := s.headers.map (fun h => { h with currentIPAddress := some s.clientIP }) }
  else s

/-- The message of the `OCPPError` thrown on a missing handler (the source
interpolates the command name after the text handle). -/
def notImplementedMessage (commandName : String) : String :=
  "The OCPP method handle" ++ commandName ++ " has not been implemented"

/-- `JsonWSConnection.handleRequest`: awaits the receive audit record; checks
whether the service object has a function-valued property named handle
followed by the command name; if so, refreshes the current IP for the two
identity-bearing commands, invokes the handler, awaits the respond audit
record, and sends the CALL_RESULT frame tagged with the request message id;
otherwise throws an `OCPPError` with code NotImplemented. A rejection of an
awaited logging call aborts processing at that point. -/
def handleRequest (env : Env) (s : ConnState) (messageId commandName payload : String) :
    ConnState × List Event × HandleOutcome :=
  match env.logOracle (AuditEvent.receiveAction s.tenantID s.chargingStationID commandName payload) with
  | Except.error e =>
      (s,
       [Event.audit (AuditEvent.receiveAction s.tenantID s.chargingStationID commandName payload) true],
       HandleOutcome.logFailure e)
  | Except.ok _ =>
      match env.serviceMethods ("handle" ++ commandName) with
      | some handler =>
          match env.logOracle (AuditEvent.respondAction (refreshCurrentIP s commandName).tenantID
              (refreshCurrentIP s commandName).chargingStationID commandName
              (handler (refreshCurrentIP s commandName).headers payload)) with
          | Except.error e =>
              (refreshCurrentIP s commandName,
               [Event.audit (AuditEvent.receiveAction s.tenantID s.chargingStationID commandName payload) true,
                Event.invokeHandler ("handle" ++ commandName),
                Event.audit (AuditEvent.respondAction (refreshCurrentIP s commandName).tenantID
                  (refreshCurrentIP s commandName).chargingStationID commandName
                  (handler (refreshCurrentIP s commandName).headers payload)) true],
               HandleOutcome.logFailure e)
          | Except.ok _ =>
              (refreshCurrentIP s commandName,
               [Event.audit (AuditEvent.receiveAction s.tenantID s.chargingStationID commandName payload) true,
                Event.invokeHandler ("handle" ++ commandName),
                Event.audit (AuditEvent.respondAction (refreshCurrentIP s commandName).tenantID
                  (refreshCurrentIP s commandName).chargingStationID commandName
                  (handler (refreshCurrentIP s commandName).headers payload)) true,
                Event.sendMessage messageId ocppMessageTypeCallResult
                  (handler (refreshCurrentIP s commandName).headers payload) commandName],
               HandleOutcome.ok)
      | none =>
          (s,
           [Event.audit (AuditEvent.receiveAction s.tenantID s.chargingStationID commandName payload) true],
           HandleOutcome.ocppError
             { source := s.chargingStationID
               code := OCPPErrorType.notImplemented
               message := notImplementedMessage commandName })

/-- Modelled from the spec: the base `WSConnection` message loop (absent from
the source tree) that calls `handleRequest` for an inbound request frame. Per
spec sections 4.3 and 7, a dispatch failure is converted to a wire Error frame
tagged with the correlation id of the request and is never dropped: a thrown
`OCPPError` keeps its code, any other internal failure is surfaced with the
generic InternalError code. -/
def processRequestFrame (env : Env) (s : ConnState) (messageId commandName payload : String) :
    ConnState × List Event :=
  match handleRequest env s messageId commandName payload with
  | (s1, tr, HandleOutcome.ok) => (s1, tr)
  | (s1, tr, HandleOutcome.ocppError e) =>
      (s1, tr ++ [Event.sendErrorFrame messageId e.code e.message])
  | (s1, tr, HandleOutcome.logFailure e) =>
      (s1, tr ++ [Event.sendErrorFrame messageId OCPPErrorType.internalError e])

/-- Modelled from the spec: `WSConnection.getConnectionStatusString` (absent
from the source tree), a readable transport status used in the audit record of
`getChargingStationClient`. -/
def connectionStatusString (s : ConnState) : String :=
  if s.wsOpen then "OPEN" else "CLOSED"

/-- `JsonWSConnection.getChargingStationClient`: returns the station client only
when the WebSocket is open; otherwise emits an error audit record with a
discarded promise and returns null (modelled as `none`). -/
def getChargingStationClient (s : ConnState) : Option StationClient × List Event :=
  if s.wsOpen then (some s.client, [])
  else
    (none,
     [Event.audit
        (AuditEvent.clientUnavailable s.tenantID s.chargingStationID (connectionStatusString s))
        false])

/-- Spec-side dispatcher, built from the words of spec sections 4.3 and 9 for
the refinement comparison: an explicit presence check of the action identifier
against a registered handler mapping; the handler is invoked on a hit, and a
miss fails with NotImplemented. -/
def specDispatch (handlers : String → Option Handler) (hd : Option OCPPHeader)
    (action payload : String) : Except OCPPErrorType String :=
  match handlers action with
  | some h => Except.ok (h hd payload)
  | none => Except.error OCPPErrorType.notImplemented

/-- The registered handler mapping induced by the service object of the source:
action a is registered exactly when the service has a function-valued property
named handle followed by a. -/
def registeredHandlers (env : Env) (action : String) : Option Handler :=
  env.serviceMethods ("handle" ++ action)

/-! ## BillingFactory -/

/-- `TenantComponents.PRICING` (wire value pricing). -/
def componentPricing : String := "pricing"

/-- `TenantComponents.BILLING` (wire value billing). -/
def componentBilling : String := "billing"

/-- `BillingSettingsType.STRIPE` (wire value stripe); the settings type is a
string enum, kept as a string here. -/
def billingSettingsTypeStripe : String := "stripe"

/-- A tenant record: its id and the list of its active component identifiers. -/
structure Tenant where
  id : String
  activeComponents : List String
  deriving DecidableEq, Repr

/-- Modelled from the spec: `Utils.isTenantComponentActive` (absent from the
source tree) tests whether the given component is active for the tenant; a
missing tenant has no active component. -/
def isTenantComponentActive (tenant : Option Tenant) (component : String) : Bool :=
  match tenant with
  | some t => t.activeComponents.contains component
  | none => false

/-- A billing setting as returned by `SettingStorage.getBillingSetting`; only
its type field is inspected by the factory. -/
structure BillingSetting where
  type : String
  deriving DecidableEq, Repr

/-- The billing integration returned by the factory; the only concrete
implementation is the Stripe one (`StripeBillingIntegration.getInstance`). -/
inductive BillingIntegration
  | stripe (tenantID : String) (setting : BillingSetting)
  deriving DecidableEq, Repr

/-- Modelled from the spec: the storage collaborators of `BillingFactory`
(`TenantStorage.getTenant` and `SettingStorage.getBillingSetting`, absent from
the source tree), as lookup functions. -/
structure BillingEnv where
  getTenant : String → Option Tenant
  getBillingSetting : String → Option BillingSetting

/-- `BillingFactory.getBillingImpl`: loads the tenant; when both the PRICING and
BILLING components are active, loads the billing settings; when they exist and
their type is STRIPE, returns the Stripe integration; in every other case the
function returns null (modelled as `none`) without throwing (the source has no
throw site; the debug log emitted when settings are missing is omitted as it
carries no data used later). -/
def getBillingImpl (env : BillingEnv) (tenantID : String) : Option BillingIntegration :=
  let tenant := env.getTenant tenantID
  if isTenantComponentActive tenant componentPricing &&
      isTenantComponentActive tenant componentBilling then
    match env.getBillingSetting tenantID with
    | some settings =>
        if settings.type = billingSettingsTypeStripe then
          some (BillingIntegration.stripe tenantID settings)
        else none
    | none => none
  else none

/-! ## AsyncTaskStorage -/

/-- An async task record; only the fields the `getAsyncTasks` filters inspect
are kept. -/
structure AsyncTask where
  id : String
  status : String
  deriving DecidableEq, Repr

/-- The filter parameters of `getAsyncTasks`. `none` stands for an absent
(undefined) value. -/
structure GetAsyncTasksParams where
  status : Option String
  asyncTaskIDs : Option (List String)
  deriving DecidableEq, Repr

/-- The `DbParams` fields `getAsyncTasks` reads (the sort specification only
permutes the result list and is carried by the environment). -/
structure DbParams where
  limit : Option Int
  skip : Option Int
  onlyRecordCount : Bool

/-- The `DataResult` returned by `getAsyncTasks`. -/
structure DataResult where
  count : Int
  result : List AsyncTask
  deriving DecidableEq, Repr

/-- Modelled from the spec: the parts of the `getAsyncTasks` pipeline whose code
is absent from the source tree. `dbRecordCountCeil` is
`Constants.DB_RECORD_COUNT_CEIL`; `checkRecordLimit` and `checkRecordSkip` are
the `Utils` normalizations of the requested limit and skip; `sortStage` is the
database sort stage (a permutation of the matched records under the requested
sort specification). -/
structure DbEnv where
  dbRecordCountCeil : Nat
  checkRecordLimit : Option Int → Int
  checkRecordSkip : Option Int → Int
  sortStage : List AsyncTask → List AsyncTask

/-- The match stage of `getAsyncTasks`: a record passes when its id is among the
requested ids (no constraint when the id array is absent or empty, per
`Utils.isEmptyArray`) and its status equals the requested status (no constraint
when the status is absent or empty, per its truthiness test). -/
def taskMatches (params : GetAsyncTasksParams) (t : AsyncTask) : Bool :=
  (match params.asyncTaskIDs with
   | some ids => if ids.isEmpty then true else ids.contains t.id
   | none => true) &&
  (match params.status with
   | some st => if st = "" then true else t.status = st
   | none => true)

/-- `AsyncTaskStorage.getAsyncTasks`. The count pipeline is the match stage
followed, when `onlyRecordCount` is false, by a limit of
`DB_RECORD_COUNT_CEIL` records; an empty count result yields 0. When only the
count is requested the function returns it with an empty result list.
Otherwise the limit is removed, the records are sorted, skipped and limited
(requested limit when strictly between 0 and the ceiling, else the ceiling),
and the returned count is the truncation sentinel -1 when the counted value
reached the ceiling. -/
def getAsyncTasks (env : DbEnv) (db : List AsyncTask) (params : GetAsyncTasksParams)
    (dbParams : DbParams) : DataResult :=
  let limit := env.checkRecordLimit dbParams.limit
  let skip := env.checkRecordSkip dbParams.skip
  let filtered := db.filter (taskMatches params)
  let counted :=
    if dbParams.onlyRecordCount then filtered.length
    else (filtered.take env.dbRecordCountCeil).length
  if dbParams.onlyRecordCount then
    { count := if counted = 0 then 0 else (counted : Int), result := [] }
  else
    let sorted := env.sortStage filtered
    let afterSkip := if skip > 0 then sorted.drop skip.toNat else sorted
    let limited :=
      afterSkip.take
        (if 0 < limit ∧ limit < (env.dbRecordCountCeil : Int) then limit.toNat
         else env.dbRecordCountCeil)
    { count :=
        if counted = 0 then 0
        else if counted = env.dbRecordCountCeil then -1
        else (counted : Int)
      result := limited }

/-! ## Concrete fixtures used by witnesses and counterexamples -/

/-- A handler that echoes its payload, used as a concrete registered handler. -/
def handlerEcho : Handler := fun _ payload => payload

/-- A concrete connection header. -/
def hdW : OCPPHeader :=
  { chargeBoxIdentity := "cs1"
    ocppVersion := "1.6"
    ocppProtocol := "json"
    chargingStationURL := "http://cs"
    tenantID := "tenant1"
    token := "tok"
    fromAddress := "1.2.3.4"
    currentIPAddress := none }

/-- A concrete, initialized, open connection. -/
def sW : ConnState :=
  { protocol := "ocpp1.6"
    tenantID := "tenant1"
    chargingStationID := "cs1"
    token := "tok"
    clientIP := "1.2.3.4"
    url := "/OCPP16/tenant1/tok/cs1"
    initialized := true
    headers := some hdW
    isConnectionAlive := true
    wsOpen := true
    client := { tenantID := "tenant1", chargingStationID := "cs1" }
    pendingCalls := [] }

/-- A concrete environment: handlers registered for BootNotification and
Heartbeat, an always-resolving logging collaborator, an existing station. -/
def envW : Env :=
  { serviceMethods := fun m =>
      if m = "handleBootNotification" ∨ m = "handleHeartbeat" then some handlerEcho else none
    logOracle := fun _ => Except.ok 0
    getChargingStation := fun _ _ => some { id := "cs1" }
    superInitialize := fun s => Except.ok s
    baseUrl := "http://base"
    baseSecureUrl := "" }

/-- `envW` with no registered handler at all. -/
def envNoHandlers : Env := { envW with serviceMethods := fun _ => none }

/-- `envW` with a logging collaborator whose second resolution value differs;
used to show that resolved audit values never matter. -/
def envW2 : Env := { envW with logOracle := fun _ => Except.ok 1 }

/-- `envW` with a logging collaborator that rejects every audit call. -/
def envWFail : Env := { envW with logOracle := fun _ => Except.error "log sink down" }

/-- A connection with one outstanding outbound call, used against `onClose`. -/
def sPending : ConnState := { sW with pendingCalls := ["42"] }

/-- A connection whose WebSocket is no longer open. -/
def sClosed : ConnState := { sW with wsOpen := false }

/-- A connection not yet initialized. -/
def sFresh : ConnState := { sW with initialized := false, headers := none }

/-- A concrete storage environment with ceiling 2 and identity normalizations. -/
def dbEnvW : DbEnv :=
  { dbRecordCountCeil := 2
    checkRecordLimit := fun l => l.getD 0
    checkRecordSkip := fun k => k.getD 0
    sortStage := fun l => l }

/-- Three concrete async tasks. -/
def dbW : List AsyncTask :=
  [{ id := "a", status := "pending" }, { id := "b", status := "pending" },
   { id := "c", status := "running" }]

/-- A handshake offering an unsupported subprotocol. -/
def cBad : IncomingConnection :=
  { protocol := "ocpp2.0"
    tenantID := "tenant1"
    chargingStationID := "cs1"
    token := "tok"
    clientIP := "1.2.3.4"
    url := "/OCPP16/tenant1/tok/cs1" }

/-! ## Theorems for the claims -/

/-- Claim C8: `BillingFactory.getBillingImpl` returns a billing integration
exactly when the tenant has both the PRICING and BILLING components active, a
billing setting exists, and its type is STRIPE; in every other case it returns
null (`none`); the embedded function is total, so no case throws. -/
theorem getBillingImpl_some_iff (env : BillingEnv) (tenantID : String) :
    (getBillingImpl env tenantID).isSome = true ↔
      (isTenantComponentActive (env.getTenant tenantID) componentPricing = true ∧
       isTenantComponentActive (env.getTenant tenantID) componentBilling = true ∧
       ∃ s, env.getBillingSetting tenantID = some s ∧ s.type = billingSettingsTypeStripe) := by
  unfold getBillingImpl
  cases hp : isTenantComponentActive (env.getTenant tenantID) componentPricing with
  | false => simp [hp]
  | true =>
    cases hb : isTenantComponentActive (env.getTenant tenantID) componentBilling with
    | false => simp [hp, hb]
    | true =>
      cases hs : env.getBillingSetting tenantID with
      | none => simp [hp, hb, hs]
      | some settings =>
        by_cases ht : settings.type = billingSettingsTypeStripe
        · simp [hp, hb, hs, ht]
        · simp [hp, hb, hs, ht]

/-- Claim C4: when the WebSocket of a connection is not open,
`getChargingStationClient` fails immediately with the connection-closed
outcome (it returns `none`, the embedding of the null return) and sends
nothing to the station: its only effect is a fire-and-forget audit record. -/
theorem client_refused_when_not_open (s : ConnState) (h : s.wsOpen = false) :
    getChargingStationClient s =
      (none,
       [Event.audit
          (AuditEvent.clientUnavailable s.tenantID s.chargingStationID (connectionStatusString s))
          false]) := by
  unfold getChargingStationClient
  simp [h]

/-- Witness for claim C4 at the concrete closed connection `sClosed`. -/
theorem client_refused_when_not_open_witness :
    sClosed.wsOpen = false ∧
      getChargingStationClient sClosed =
        (none,
         [Event.audit
            (AuditEvent.clientUnavailable sClosed.tenantID sClosed.chargingStationID
              (connectionStatusString sClosed))
            false]) :=
  ⟨rfl, client_refused_when_not_open sClosed rfl⟩

/-- Claim C5 counterexample: on a connection with one outstanding pending call,
`onClose` leaves the connection state exactly as it was — the pending call is
not failed or removed, and no closed mark is written (the liveness flag is
still true) — refuting the claim that close marks the connection closed and
fails all PendingCalls. -/
theorem onClose_state_unchanged_cex :
    (onClose sPending "station vanished").1 = sPending ∧
    (onClose sPending "station vanished").1.pendingCalls = ["42"] ∧
    (onClose sPending "station vanished").1.pendingCalls ≠ [] ∧
    (onClose sPending "station vanished").1.isConnectionAlive = true := by
  refine ⟨rfl, by decide, by decide, by decide⟩

/-- Claim C5 (amended): when the close event fires, `onClose` emits a
fire-and-forget audit record and notifies the owning server through
`removeJsonConnection` so the connection is removed from the registry; it
writes no connection state, so it neither marks the connection closed nor
fails its pending calls. -/
theorem onClose_logs_and_notifies_registry (s : ConnState) (reason : String) :
    (onClose s reason).1 = s ∧
    Event.removeJsonConnection ∈ (onClose s reason).2 ∧
    ∀ ev b, Event.audit ev b ∈ (onClose s reason).2 → b = false := by
  refine ⟨rfl, by simp [onClose], ?_⟩
  intro ev b hmem
  simp only [onClose, List.mem_cons, List.mem_singleton] at hmem
  rcases hmem with h1 | h2 | h3
  · simp only [Event.audit.injEq] at h1
    exact h1.2
  · exact Event.noConfusion h2
  · cases h3

/-- Claim C2: a handshake whose negotiated subprotocol is not the recognized
`ocpp1.6` makes the `JsonWSConnection` constructor throw the
unsupported-protocol `BackendError`, so the connection is refused: the
transport is closed, the registry is unchanged (never admitted) and no frame
is processed. -/
theorem unsupported_protocol_connection_refused (registry : List (String × String))
    (c : IncomingConnection) (h : c.protocol ≠ wsServerProtocolOCPP16) :
    jsonWSConnectionConstruct c =
      Except.error
        { source := c.chargingStationID
          module := "JsonWSConnection"
          method := "constructor"
          message := "Protocol " ++ c.protocol ++ " not supported" } ∧
    acceptJsonConnection registry c = (none, registry, [Event.closeTransport]) := by
  have hc : jsonWSConnectionConstruct c =
      Except.error
        { source := c.chargingStationID
          module := "JsonWSConnection"
          method := "constructor"
          message := "Protocol " ++ c.protocol ++ " not supported" } := by
    unfold jsonWSConnectionConstruct
    simp [h]
  refine ⟨hc, ?_⟩
  unfold acceptJsonConnection
  rw [hc]

/-- Witness for claim C2 at the concrete handshake `cBad` (subprotocol
ocpp2.0), over an empty registry. -/
theorem unsupported_protocol_connection_refused_witness :
    cBad.protocol ≠ wsServerProtocolOCPP16 ∧
      (jsonWSConnectionConstruct cBad =
        Except.error
          { source := cBad.chargingStationID
            module := "JsonWSConnection"
            method := "constructor"
            message := "Protocol " ++ cBad.protocol ++ " not supported" } ∧
      acceptJsonConnection [] cBad = (none, [], [Event.closeTransport])) :=
  ⟨by decide, unsupported_protocol_connection_refused [] cBad (by decide)⟩

/-- Claim C9: `initialize` is idempotent. If a call to `initConnection`
completes normally, a second call on the resulting connection performs no
work: it emits no event and leaves every field (headers, initialized flag)
unchanged. -/
theorem initConnection_idempotent (env : Env) (s : ConnState)
    (h : (initConnection env s).2.2 = InitOutcome.ok) :
    initConnection env ((initConnection env s).1) =
      ((initConnection env s).1, [], InitOutcome.ok) := by
  unfold initConnection at h ⊢
  by_cases hi : s.initialized
  · simp [hi]
  · cases hsup : env.superInitialize s with
    | error e => simp [hi, hsup] at h
    | ok s1 =>
      cases hlog : env.logOracle (AuditEvent.connectionOpened s1.tenantID s1.chargingStationID) with
      | error e => simp [hi, hsup, hlog] at h
      | ok v => simp [hi, hsup, hlog]

/-- Witness for claim C9 at the concrete fresh connection `sFresh` in the
environment `envW`. -/
theorem initConnection_idempotent_witness :
    (initConnection envW sFresh).2.2 = InitOutcome.ok ∧
      initConnection envW ((initConnection envW sFresh).1) =
        ((initConnection envW sFresh).1, [], InitOutcome.ok) :=
  ⟨by decide, initConnection_idempotent envW sFresh (by decide)⟩

/-- Claim C1: a request frame whose command has no registered handler (the
service object has no function-valued property for it) makes `handleRequest`
throw the stable NotImplemented code, and the message loop surfaces it to the
station as an Error frame carrying the correlation id of the request — the
request is never silently dropped (the hypothesis on the logging collaborator
states that the awaited receive audit record resolves). -/
theorem handleRequest_missing_handler_error_frame (env : Env) (s : ConnState)
    (messageId commandName payload : String)
    (hmiss : env.serviceMethods ("handle" ++ commandName) = none)
    (hlog : ∃ v,
      env.logOracle (AuditEvent.receiveAction s.tenantID s.chargingStationID commandName payload) =
        Except.ok v) :
    processRequestFrame env s messageId commandName payload =
      (s,
       [Event.audit (AuditEvent.receiveAction s.tenantID s.chargingStationID commandName payload) true,
        Event.sendErrorFrame messageId OCPPErrorType.notImplemented
          (notImplementedMessage commandName)]) := by
  obtain ⟨v, hv⟩ := hlog
  unfold processRequestFrame handleRequest
  rw [hv, hmiss]
  rfl

/-- Witness for claim C1: in the environment with no registered handler, the
request frame with correlation id 1 and command Ping is answered by an Error
frame with the NotImplemented code and correlation id 1. -/
theorem handleRequest_missing_handler_error_frame_witness :
    envNoHandlers.serviceMethods ("handle" ++ "Ping") = none ∧
    (∃ v,
      envNoHandlers.logOracle (AuditEvent.receiveAction sW.tenantID sW.chargingStationID "Ping" "p") =
        Except.ok v) ∧
    processRequestFrame envNoHandlers sW "1" "Ping" "p" =
      (sW,
       [Event.audit (AuditEvent.receiveAction sW.tenantID sW.chargingStationID "Ping" "p") true,
        Event.sendErrorFrame "1" OCPPErrorType.notImplemented (notImplementedMessage "Ping")]) :=
  ⟨rfl, ⟨0, rfl⟩,
    handleRequest_missing_handler_error_frame envNoHandlers sW "1" "Ping" "p" rfl ⟨0, rfl⟩⟩

/-- Claim C3 counterexample: dispatching BootNotification (with its handler
registered and every collaborator healthy) completes normally, yet the run
performs no last-seen update through the persistence collaborator — neither a
station read nor a last-seen save occurs — refuting the claim that dispatch of
an identity-bearing action causes a last-seen update. -/
theorem dispatch_bootNotification_no_lastSeen_cex :
    (handleRequest envW sW "1" "BootNotification" "p").2.2 = HandleOutcome.ok ∧
    Event.saveChargingStationLastSeen "tenant1" "cs1" ∉
      (handleRequest envW sW "1" "BootNotification" "p").2.1 ∧
    Event.getChargingStation "tenant1" "cs1" ∉
      (handleRequest envW sW "1" "BootNotification" "p").2.1 :=
  ⟨by decide, by decide, by decide⟩

/-- Claim C3 (amended): dispatch triggers no last-seen update through the
persistence collaborator for any action (the `handleRequest` trace never
contains a last-seen save); the last-seen updates are instead performed by the
liveness events: `onPing` and `onPong` save the last-seen timestamp whenever
the station exists in persistence. -/
theorem lastSeen_updated_by_liveness_not_dispatch
    (env : Env) (s : ConnState) (messageId commandName payload : String)
    (env2 : Env) (s2 : ConnState)
    (hstation : (env2.getChargingStation s2.tenantID s2.chargingStationID).isSome = true) :
    (∀ t c, Event.saveChargingStationLastSeen t c ∉
        (handleRequest env s messageId commandName payload).2.1) ∧
    Event.saveChargingStationLastSeen s2.tenantID s2.chargingStationID ∈ (onPing env2 s2).2 ∧
    Event.saveChargingStationLastSeen s2.tenantID s2.chargingStationID ∈ (onPong env2 s2).2 := by
  refine ⟨?_, ?_, ?_⟩
  · intro t c
    unfold handleRequest
    split
    · simp
    · split
      · split
        · simp
        · simp
      · simp
  · obtain ⟨cs, hcs⟩ := Option.isSome_iff_exists.mp hstation
    unfold onPing updateChargingStationLastSeen
    rw [hcs]
    simp
  · obtain ⟨cs, hcs⟩ := Option.isSome_iff_exists.mp hstation
    unfold onPong updateChargingStationLastSeen
    rw [hcs]
    simp

/-- Witness for claim C3 (amended) at the concrete environment `envW` and
connection `sW`, with a Heartbeat dispatch. -/
theorem lastSeen_updated_by_liveness_not_dispatch_witness :
    (envW.getChargingStation sW.tenantID sW.chargingStationID).isSome = true ∧
    ((∀ t c, Event.saveChargingStationLastSeen t c ∉
        (handleRequest envW sW "1" "Heartbeat" "p").2.1) ∧
     Event.saveChargingStationLastSeen sW.tenantID sW.chargingStationID ∈ (onPing envW sW).2 ∧
     Event.saveChargingStationLastSeen sW.tenantID sW.chargingStationID ∈ (onPong envW sW).2) :=
  ⟨rfl, lastSeen_updated_by_liveness_not_dispatch envW sW "1" "Heartbeat" "p" envW sW rfl⟩

/-- Claim C10: with `onlyRecordCount` false, `getAsyncTasks` returns the
truncation sentinel -1 when the number of matching records equals
`DB_RECORD_COUNT_CEIL`, the exact number of matches when below the ceiling,
and 0 when nothing matches; with `onlyRecordCount` true it returns the raw
count together with an empty result list. -/
theorem getAsyncTasks_count_spec (env : DbEnv) (db : List AsyncTask)
    (params : GetAsyncTasksParams) (dbParams : DbParams)
    (hceil : 0 < env.dbRecordCountCeil) :
    (dbParams.onlyRecordCount = false →
      (((db.filter (taskMatches params)).length = env.dbRecordCountCeil →
          (getAsyncTasks env db params dbParams).count = -1) ∧
       ((db.filter (taskMatches params)).length < env.dbRecordCountCeil →
          (getAsyncTasks env db params dbParams).count =
            ((db.filter (taskMatches params)).length : Int)) ∧
       ((db.filter (taskMatches params)).length = 0 →
          (getAsyncTasks env db params dbParams).count = 0))) ∧
    (dbParams.onlyRecordCount = true →
      (getAsyncTasks env db params dbParams).count =
        ((db.filter (taskMatches params)).length : Int) ∧
      (getAsyncTasks env db params dbParams).result = []) := by
  cases horc : dbParams.onlyRecordCount with
  | true =>
    refine ⟨fun hf => absurd hf (by simp), fun _ => ?_⟩
    unfold getAsyncTasks
    rw [horc]
    by_cases h0 : (db.filter (taskMatches params)).length = 0 <;> simp [h0]
  | false =>
    refine ⟨fun _ => ?_, fun ht => absurd ht (by simp)⟩
    unfold getAsyncTasks
    rw [horc]
    simp only [Bool.false_eq_true, if_false, List.length_take]
    refine ⟨?_, ?_, ?_⟩ <;> intro h <;> split_ifs <;> omega

/-- Witness for claim C10: with ceiling 2, the three concrete tasks give count
-1 when two match (pending), count 1 when one matches (running), count 0 when
nothing matches, and the raw count 3 with an empty result list when only the
count of an unfiltered query is requested. -/
theorem getAsyncTasks_count_spec_witness :
    0 < dbEnvW.dbRecordCountCeil ∧
    (getAsyncTasks dbEnvW dbW { status := some "pending", asyncTaskIDs := none }
        { limit := none, skip := none, onlyRecordCount := false }).count = -1 ∧
    (getAsyncTasks dbEnvW dbW { status := some "running", asyncTaskIDs := none }
        { limit := none, skip := none, onlyRecordCount := false }).count = 1 ∧
    (getAsyncTasks dbEnvW dbW { status := some "done", asyncTaskIDs := none }
        { limit := none, skip := none, onlyRecordCount := false }).count = 0 ∧
    (getAsyncTasks dbEnvW dbW { status := none, asyncTaskIDs := none }
        { limit := none, skip := none, onlyRecordCount := true }).count = 3 ∧
    (getAsyncTasks dbEnvW dbW { status := none, asyncTaskIDs := none }
        { limit := none, skip := none, onlyRecordCount := true }).result = [] := by
  refine ⟨?_, ?_, ?_, ?_, ?_, ?_⟩
  · exact Nat.zero_lt_succ 1
  · exact ((getAsyncTasks_count_spec dbEnvW dbW { status := some "pending", asyncTaskIDs := none }
      { limit := none, skip := none, onlyRecordCount := false } (by decide)).1 rfl).1 (by decide)
  · exact ((getAsyncTasks_count_spec dbEnvW dbW { status := some "running", asyncTaskIDs := none }
      { limit := none, skip := none, onlyRecordCount := false } (by decide)).1 rfl).2.1 (by decide)
  · exact ((getAsyncTasks_count_spec dbEnvW dbW { status := some "done", asyncTaskIDs := none }
      { limit := none, skip := none, onlyRecordCount := false } (by decide)).1 rfl).2.2 (by decide)
  · exact ((getAsyncTasks_count_spec dbEnvW dbW { status := none, asyncTaskIDs := none }
      { limit := none, skip := none, onlyRecordCount := true } (by decide)).2 rfl).1.trans (by decide)
  · exact ((getAsyncTasks_count_spec dbEnvW dbW { status := none, asyncTaskIDs := none }
      { limit := none, skip := none, onlyRecordCount := true } (by decide)).2 rfl).2

/-- Claim C6 counterexample: the environments `envW` and `envWFail` differ only
in the behavior of the logging collaborator (every other collaborator field is
equal), yet processing the same request frame produces different results —
`handleRequest` awaits its audit calls, so a rejecting logging collaborator
changes the outcome; moreover the receive audit record of the healthy run is
awaited (its awaited flag is true), refuting fire-and-forget. -/
theorem audit_blocking_cex :
    envWFail.serviceMethods = envW.serviceMethods ∧
    envWFail.getChargingStation = envW.getChargingStation ∧
    envWFail.superInitialize = envW.superInitialize ∧
    envWFail.baseUrl = envW.baseUrl ∧
    envWFail.baseSecureUrl = envW.baseSecureUrl ∧
    processRequestFrame envW sW "7" "Heartbeat" "p" ≠
      processRequestFrame envWFail sW "7" "Heartbeat" "p" ∧
    Event.audit (AuditEvent.receiveAction "tenant1" "cs1" "Heartbeat" "p") true ∈
      (processRequestFrame envW sW "7" "Heartbeat" "p").2 :=
  ⟨rfl, rfl, rfl, rfl, rfl, by decide, by decide⟩

/-- Claim C6 (amended): the audit records of `onError` and `onClose` are
fire-and-forget (their promises are discarded and the connection state is
untouched); the audit records of `handleRequest` are awaited, but as long as
the logging collaborator resolves, its resolution values never influence the
produced response or the connection state: two environments that differ only
in an always-resolving logging collaborator process any request frame
identically. -/
theorem audit_noninterference_upto_success
    (env env2 : Env) (s : ConnState)
    (messageId commandName payload errMessage reason : String)
    (hsm : env2.serviceMethods = env.serviceMethods)
    (hcs : env2.getChargingStation = env.getChargingStation)
    (hsi : env2.superInitialize = env.superInitialize)
    (hbu : env2.baseUrl = env.baseUrl)
    (hbs : env2.baseSecureUrl = env.baseSecureUrl)
    (hok : ∀ e, ∃ v, env.logOracle e = Except.ok v)
    (hok2 : ∀ e, ∃ v, env2.logOracle e = Except.ok v) :
    processRequestFrame env s messageId commandName payload =
      processRequestFrame env2 s messageId commandName payload ∧
    (onError s errMessage).1 = s ∧
    (∀ ev b, Event.audit ev b ∈ (onError s errMessage).2 → b = false) ∧
    (∀ ev b, Event.audit ev b ∈ (onClose s reason).2 → b = false) := by
  refine ⟨?_, rfl, ?_, ?_⟩
  · obtain ⟨v1, hv1⟩ :=
      hok (AuditEvent.receiveAction s.tenantID s.chargingStationID commandName payload)
    obtain ⟨w1, hw1⟩ :=
      hok2 (AuditEvent.receiveAction s.tenantID s.chargingStationID commandName payload)
    unfold processRequestFrame handleRequest
    simp only [hv1, hw1, hsm]
    cases hm : env.serviceMethods ("handle" ++ commandName) with
    | none => rfl
    | some handler =>
      obtain ⟨v2, hv2⟩ := hok (AuditEvent.respondAction (refreshCurrentIP s commandName).tenantID
        (refreshCurrentIP s commandName).chargingStationID commandName
        (handler (refreshCurrentIP s commandName).headers payload))
      obtain ⟨w2, hw2⟩ := hok2 (AuditEvent.respondAction (refreshCurrentIP s commandName).tenantID
        (refreshCurrentIP s commandName).chargingStationID commandName
        (handler (refreshCurrentIP s commandName).headers payload))
      simp only [hv2, hw2]
  · intro ev b hmem
    simp only [onError, List.mem_singleton, Event.audit.injEq] at hmem
    exact hmem.2
  · intro ev b hmem
    simp only [onClose, List.mem_cons, List.mem_singleton] at hmem
    rcases hmem with h1 | h2 | h3
    · simp only [Event.audit.injEq] at h1
      exact h1.2
    · exact Event.noConfusion h2
    · cases h3

/-- Witness for claim C6 (amended) with the concrete environments `envW` and
`envW2`, whose logging collaborators resolve with the different values 0 and
1. -/
theorem audit_noninterference_upto_success_witness :
    (∀ e, ∃ v, envW.logOracle e = Except.ok v) ∧
    (∀ e, ∃ v, envW2.logOracle e = Except.ok v) ∧
    (processRequestFrame envW sW "1" "Heartbeat" "p" =
       processRequestFrame envW2 sW "1" "Heartbeat" "p" ∧
     (onError sW "boom").1 = sW ∧
     (∀ ev b, Event.audit ev b ∈ (onError sW "boom").2 → b = false) ∧
     (∀ ev b, Event.audit ev b ∈ (onClose sW "bye").2 → b = false)) :=
  ⟨fun _ => ⟨0, rfl⟩, fun _ => ⟨1, rfl⟩,
    audit_noninterference_upto_success envW envW2 sW "1" "Heartbeat" "p" "boom" "bye"
      rfl rfl rfl rfl rfl (fun _ => ⟨0, rfl⟩) (fun _ => ⟨1, rfl⟩)⟩

/-- Claim C7: handler resolution in `handleRequest` behaves exactly as the
explicit presence check of the spec-side dispatcher `specDispatch` over the
registered mapping `registeredHandlers` induced by the service object: a hit
invokes the registered handler and sends its result, a miss is surfaced as the
NotImplemented error, and the only method ever invoked is the registered
handler of the dispatched action (no other property of the service object is
reachable). -/
theorem handleRequest_refines_explicit_mapping
    (env : Env) (s : ConnState) (messageId commandName payload : String)
    (hok : ∀ e, ∃ v, env.logOracle e = Except.ok v) :
    (∀ r, specDispatch (registeredHandlers env) (refreshCurrentIP s commandName).headers
        commandName payload = Except.ok r →
      (handleRequest env s messageId commandName payload).2.2 = HandleOutcome.ok ∧
      Event.sendMessage messageId ocppMessageTypeCallResult r commandName ∈
        (handleRequest env s messageId commandName payload).2.1) ∧
    (∀ c, specDispatch (registeredHandlers env) (refreshCurrentIP s commandName).headers
        commandName payload = Except.error c →
      (handleRequest env s messageId commandName payload).2.2 =
        HandleOutcome.ocppError
          { source := s.chargingStationID
            code := c
            message := notImplementedMessage commandName }) ∧
    (∀ m, Event.invokeHandler m ∈ (handleRequest env s messageId commandName payload).2.1 →
      m = "handle" ++ commandName) := by
  obtain ⟨v1, hv1⟩ :=
    hok (AuditEvent.receiveAction s.tenantID s.chargingStationID commandName payload)
  cases hm : env.serviceMethods ("handle" ++ commandName) with
  | none =>
    have hEq : handleRequest env s messageId commandName payload =
        (s,
         [Event.audit (AuditEvent.receiveAction s.tenantID s.chargingStationID commandName payload) true],
         HandleOutcome.ocppError
           { source := s.chargingStationID
             code := OCPPErrorType.notImplemented
             message := notImplementedMessage commandName }) := by
      unfold handleRequest
      simp only [hv1, hm]
    have hSpec : specDispatch (registeredHandlers env) (refreshCurrentIP s commandName).headers
        commandName payload = Except.error OCPPErrorType.notImplemented := by
      unfold specDispatch registeredHandlers
      rw [hm]
    refine ⟨?_, ?_, ?_⟩
    · intro r hr
      rw [hSpec] at hr
      exact Except.noConfusion hr
    · intro c hc
      rw [hSpec] at hc
      injection hc with h
      rw [hEq, ← h]
    · intro m hmem
      rw [hEq] at hmem
      simp at hmem
  | some handler =>
    obtain ⟨v2, hv2⟩ := hok (AuditEvent.respondAction (refreshCurrentIP s commandName).tenantID
      (refreshCurrentIP s commandName).chargingStationID commandName
      (handler (refreshCurrentIP s commandName).headers payload))
    have hEq : handleRequest env s messageId commandName payload =
        (refreshCurrentIP s commandName,
         [Event.audit (AuditEvent.receiveAction s.tenantID s.chargingStationID commandName payload) true,
          Event.invokeHandler ("handle" ++ commandName),
          Event.audit (AuditEvent.respondAction (refreshCurrentIP s commandName).tenantID
            (refreshCurrentIP s commandName).chargingStationID commandName
            (handler (refreshCurrentIP s commandName).headers payload)) true,
          Event.sendMessage messageId ocppMessageTypeCallResult
            (handler (refreshCurrentIP s commandName).headers payload) commandName],
         HandleOutcome.ok) := by
      unfold handleRequest
      simp only [hv1, hm, hv2]
    have hSpec : specDispatch (registeredHandlers env) (refreshCurrentIP s commandName).headers
        commandName payload =
        Except.ok (handler (refreshCurrentIP s commandName).headers payload) := by
      unfold specDispatch registeredHandlers
      rw [hm]
    refine ⟨?_, ?_, ?_⟩
    · intro r hr
      rw [hSpec] at hr
      injection hr with h
      refine ⟨by rw [hEq], ?_⟩
      rw [hEq, ← h]
      simp
    · intro c hc
      rw [hSpec] at hc
      exact Except.noConfusion hc
    · intro m hmem
      rw [hEq] at hmem
      simp only [List.mem_cons, List.mem_singleton] at hmem
      rcases hmem with h1 | h2 | h3 | h4 | h5
      · exact Event.noConfusion h1
      · simp only [Event.invokeHandler.injEq] at h2
        exact h2
      · exact Event.noConfusion h3
      · exact Event.noConfusion h4
      · cases h5

/-- Witness for claim C7 at the concrete environment `envW` (Heartbeat handler
registered) and connection `sW`. -/
theorem handleRequest_refines_explicit_mapping_witness :
    (∀ e, ∃ v, envW.logOracle e = Except.ok v) ∧
    ((∀ r, specDispatch (registeredHandlers envW) (refreshCurrentIP sW "Heartbeat").headers
        "Heartbeat" "p" = Except.ok r →
      (handleRequest envW sW "1" "Heartbeat" "p").2.2 = HandleOutcome.ok ∧
      Event.sendMessage "1" ocppMessageTypeCallResult r "Heartbeat" ∈
        (handleRequest envW sW "1" "Heartbeat" "p").2.1) ∧
    (∀ c, specDispatch (registeredHandlers envW) (refreshCurrentIP sW "Heartbeat").headers
        "Heartbeat" "p" = Except.error c →
      (handleRequest envW sW "1" "Heartbeat" "p").2.2 =
        HandleOutcome.ocppError
          { source := sW.chargingStationID
            code := c
            message := notImplementedMessage "Heartbeat" }) ∧
    (∀ m, Event.invokeHandler m ∈ (handleRequest envW sW "1" "Heartbeat" "p").2.1 →
      m = "handle" ++ "Heartbeat")) :=
  ⟨fun _ => ⟨0, rfl⟩,
    handleRequest_refines_explicit_mapping envW sW "1" "Heartbeat" "p" (fun _ => ⟨0, rfl⟩)⟩

end EvServer
